import Mathlib

/-!
Verification of the Zephyr BLE controller HCI driver transport bridge
(`subsys/bluetooth/controller/hci/hci_driver.c`).

The development shallowly embeds the receive-path dispatch logic:
classification-driven priority dispatch (`process_prio_evt`, the
general-queue handling of `prio_recv_thread`), the host-buffer
flow-control gate (`process_node`, `process_hbuf`), the encode step
(`encode_node`), the ISO SDU emission framing (`sink_sdu_emit_hci`
and its helper packing macros), and the outbound send entry point
(`hci_driver_send`).  Machine integers of the C source are modelled
as `Int` (the credit counters are `int32_t` and stay tiny) and `Nat`
(lengths, handles); byte output is a `List Nat` of byte values.
-/

namespace HciDriver

/-- Node classes stored in `hdr.user_meta` by `hci_get_class`
    (`HCI_CLASS_NONE`, `HCI_CLASS_EVT_DISCARDABLE`, ...,
    `HCI_CLASS_ISO_DATA`). -/
inductive HciClass where
  | classNone
  | evtDiscardable
  | evtRequired
  | evtConnection
  | evtLlcp
  | aclData
  | isoData
deriving DecidableEq, Repr

/-- Distinguishes `NODE_RX_TYPE_TERMINATE` from every other node type. -/
inductive NodeType where
  | terminate
  | otherType
deriving DecidableEq, Repr

/-- One controller-produced receive unit (`struct node_rx_pdu`): its class
    (`hdr.user_meta`), node type (`hdr.type`) and connection handle
    (`hdr.handle`). -/
structure NodeRx where
  cls : HciClass
  typ : NodeType
  handle : Nat
deriving DecidableEq, Repr

/-- A host-facing packet buffer produced by `encode_node`: either an HCI
    event (`hci_evt_encode`) or ACL data (`hci_acl_encode`) for the node. -/
inductive Packet where
  | evtPacket (node : NodeRx)
  | aclPacket (node : NodeRx)
deriving DecidableEq, Repr

/-- Which memory-release call freed the node: `ll_rx_mem_release` or
    `ll_iso_rx_mem_release`. -/
inductive ReleasePath where
  | llRx
  | llIsoRx
deriving DecidableEq, Repr

/-- Result of `encode_node`: the produced buffer (if any), the release
    path used for the node, and whether the fatal `LL_ASSERT(0)` default
    branch was reached. -/
structure EncodeResult where
  buf : Option Packet
  release : ReleasePath
  fatal : Bool
deriving DecidableEq, Repr

/-- Shallow embedding of `encode_node` (hci_driver.c:325-419).  `allocOk`
    models whether the `K_NO_WAIT` buffer allocation for a discardable
    event succeeds (all other allocations use `K_FOREVER` and cannot
    fail).  The ISO branch hands the PDU to the recombination adapter and
    releases the node via `ll_iso_rx_mem_release`, returning no buffer. -/
def encode_node (allocOk : Bool) (node : NodeRx) (cls : HciClass) : EncodeResult :=
  match cls with
  | .evtDiscardable =>
      if allocOk then ⟨some (.evtPacket node), .llRx, false⟩
      else ⟨none, .llRx, false⟩
  | .evtRequired => ⟨some (.evtPacket node), .llRx, false⟩
  | .evtConnection => ⟨some (.evtPacket node), .llRx, false⟩
  | .evtLlcp => ⟨some (.evtPacket node), .llRx, false⟩
  | .aclData => ⟨some (.aclPacket node), .llRx, false⟩
  | .isoData => ⟨none, .llIsoRx, false⟩
  | .classNone => ⟨none, .llRx, true⟩

/-- Flow-control gate state: the available-credit counter `hbuf_count`
    (`-1` means flow control disabled) and the FIFO pending queue
    `hbuf_pend` (head = oldest). -/
structure GateState where
  hbuf_count : Int
  hbuf_pend : List NodeRx
deriving DecidableEq, Repr

/-- Result of `process_node`: possibly a packet, the updated gate state
    and the fatal-assert flag. -/
structure NodeResult where
  buf : Option Packet
  st : GateState
  fatal : Bool
deriving DecidableEq, Repr

/-- Shallow embedding of `process_node` (hci_driver.c:421-459) with
    `CONFIG_BT_HCI_ACL_FLOW_CONTROL` enabled.  For connection/LLCP
    events the source assigns `hbuf_count = 1` and falls through into
    the ACL test `pend || !hbuf_count`, so for them only `pend` decides;
    a deferred node is appended to the tail of `hbuf_pend`. -/
def process_node (allocOk : Bool) (st : GateState) (node : NodeRx) : NodeResult :=
  if st.hbuf_count ≠ -1 then
    let pend : Bool := !st.hbuf_pend.isEmpty
    match node.cls with
    | .isoData =>
        let r := encode_node allocOk node node.cls
        ⟨r.buf, st, r.fatal⟩
    | .evtDiscardable =>
        let r := encode_node allocOk node node.cls
        ⟨r.buf, st, r.fatal⟩
    | .evtRequired =>
        let r := encode_node allocOk node node.cls
        ⟨r.buf, st, r.fatal⟩
    | .evtConnection =>
        if pend || decide ((1 : Int) = 0) then
          ⟨none, ⟨1, st.hbuf_pend ++ [node]⟩, false⟩
        else
          let r := encode_node allocOk node node.cls
          ⟨r.buf, ⟨1, st.hbuf_pend⟩, r.fatal⟩
    | .evtLlcp =>
        if pend || decide ((1 : Int) = 0) then
          ⟨none, ⟨1, st.hbuf_pend ++ [node]⟩, false⟩
        else
          let r := encode_node allocOk node node.cls
          ⟨r.buf, ⟨1, st.hbuf_pend⟩, r.fatal⟩
    | .aclData =>
        if pend || decide (st.hbuf_count = 0) then
          ⟨none, ⟨st.hbuf_count, st.hbuf_pend ++ [node]⟩, false⟩
        else
          let r := encode_node allocOk node node.cls
          ⟨r.buf, st, r.fatal⟩
    | .classNone => ⟨none, st, true⟩
  else
    let r := encode_node allocOk node node.cls
    ⟨r.buf, st, r.fatal⟩

/-- The head-admissibility test repeated twice in `process_hbuf`
    (hci_driver.c:494-496 and 535-537):
    `class == HCI_CLASS_EVT_CONNECTION || class == HCI_CLASS_EVT_LLCP ||
     (class == HCI_CLASS_ACL_DATA && hbuf_count)`. -/
def hbuf_head_admissible (cls : HciClass) (count : Int) : Bool :=
  cls == .evtConnection || cls == .evtLlcp || (cls == .aclData && count != 0)

/-- Result of `process_hbuf`: possibly a packet from the pending queue,
    the updated gate state, whether `hbuf_signal` was raised, the node
    consumed (dequeued and passed to `encode_node`) this pass, and the
    fatal-assert flag. -/
structure HbufResult where
  buf : Option Packet
  st : GateState
  signal : Bool
  consumed : Option NodeRx
  fatal : Bool
deriving DecidableEq, Repr

/-- Shallow embedding of `process_hbuf` (hci_driver.c:461-549).
    `reset` is the atomically test-and-cleared `HCI_STATE_BIT_RESET` bit;
    a pending reset re-initialises `hbuf_pend` without freeing nodes.
    `total`, `sent`, `acked` are the values of `hci_hbuf_total`,
    `hci_hbuf_sent`, `hci_hbuf_acked` at the first read (line 466/483);
    `sent2`, `acked2` are the values at the re-read after encoding
    (line 529) — the counters live in another module and may move in
    between.  `nPresent` tells whether this iteration already consumed a
    node from the handover FIFO (parameter `n`). -/
def process_hbuf (allocOk reset : Bool) (total sent acked sent2 acked2 : Int)
    (pend0 : List NodeRx) (nPresent : Bool) : HbufResult :=
  let pend1 := if reset then [] else pend0
  if total ≤ 0 then
    ⟨none, ⟨-1, pend1⟩, false, none, false⟩
  else
    let count := total - (sent - acked)
    match pend1 with
    | [] => ⟨none, ⟨count, []⟩, false, none, false⟩
    | node :: rest =>
      if nPresent then
        ⟨none, ⟨count, node :: rest⟩, hbuf_head_admissible node.cls count, none, false⟩
      else
        match node.cls with
        | .evtConnection =>
            let r := encode_node allocOk node node.cls
            let count2 := total - (sent2 - acked2)
            let signal := match rest with
                          | [] => false
                          | node2 :: _ => hbuf_head_admissible node2.cls count2
            ⟨r.buf, ⟨count2, rest⟩, signal, some node, r.fatal⟩
        | .evtLlcp =>
            let r := encode_node allocOk node node.cls
            let count2 := total - (sent2 - acked2)
            let signal := match rest with
                          | [] => false
                          | node2 :: _ => hbuf_head_admissible node2.cls count2
            ⟨r.buf, ⟨count2, rest⟩, signal, some node, r.fatal⟩
        | .aclData =>
            if count = 0 then
              ⟨none, ⟨count, node :: rest⟩, false, none, false⟩
            else
              let r := encode_node allocOk node node.cls
              let count2 := total - (sent2 - acked2)
              let signal := match rest with
                            | [] => false
                            | node2 :: _ => hbuf_head_admissible node2.cls count2
              ⟨r.buf, ⟨count2, rest⟩, signal, some node, r.fatal⟩
        | _ => ⟨none, ⟨count, node :: rest⟩, false, none, true⟩

/-- One receive-loop iteration of `recv_thread` (hci_driver.c:569-600)
    up to the point where `buf` is determined: `process_hbuf` runs
    first, and `process_node` handles the fresh node only when
    `process_hbuf` produced no buffer. -/
def recv_iter (allocOk reset : Bool) (total sent acked sent2 acked2 : Int)
    (pend0 : List NodeRx) (n : Option NodeRx) : NodeResult :=
  let h := process_hbuf allocOk reset total sent acked sent2 acked2 pend0 n.isSome
  match n, h.buf with
  | some node, none =>
      let r := process_node allocOk h.st node
      ⟨r.buf, r.st, h.fatal || r.fatal⟩
  | _, _ => ⟨h.buf, h.st, h.fatal⟩

/-- A priority-channel HCI event synthesized inline by the priority
    dispatcher: a disconnection-complete event (`hci_disconn_complete_encode`
    on handle) or a number-of-completed-packets event
    (`hci_num_cmplt_encode`). -/
inductive PrioEvt where
  | disconnComplete (handle : Nat)
  | numCompletedPackets (handle : Nat) (num : Nat)
deriving DecidableEq, Repr

/-- The event-flag bits `BT_HCI_EVT_FLAG_RECV_PRIO` and
    `BT_HCI_EVT_FLAG_RECV` written through `evt_flags`. -/
structure EvtFlags where
  recv_prio : Bool
  recv : Bool
deriving DecidableEq, Repr

/-- Shallow embedding of `process_prio_evt` (hci_driver.c:192-216): a
    connection-class node of type `NODE_RX_TYPE_TERMINATE` yields a
    disconnection-complete event for its handle with flags
    `RECV_PRIO | RECV`; every other node yields no buffer and flag
    `RECV` alone. -/
def process_prio_evt (node : NodeRx) : Option PrioEvt × EvtFlags :=
  if node.cls = .evtConnection ∧ node.typ = .terminate then
    (some (.disconnComplete node.handle), ⟨true, true⟩)
  else
    (none, ⟨false, true⟩)

/-- What `prio_recv_thread` does with one dequeued general-queue node:
    which priority event (if any) it emitted via `bt_recv_prio`, whether
    it released the node immediately (`ll_rx_mem_release`), and whether
    it forwarded the node to the handover FIFO (`k_fifo_put`). -/
structure PrioNodeResult where
  prioEmit : Option PrioEvt
  releasedNode : Bool
  forwarded : Bool
deriving DecidableEq, Repr

/-- Shallow embedding of the general-queue node handling in
    `prio_recv_thread` (hci_driver.c:269-304): after classification,
    `process_prio_evt` runs; when it returns a buffer, the node is
    released right away iff `BT_HCI_EVT_FLAG_RECV` is clear, and the
    buffer goes out on the priority channel; the node is pushed to
    `recv_fifo` iff `BT_HCI_EVT_FLAG_RECV` is set. -/
def prio_recv_node (node : NodeRx) : PrioNodeResult :=
  let r := process_prio_evt node
  match r.1 with
  | some e => ⟨some e, !r.2.recv, r.2.recv⟩
  | none => ⟨none, false, r.2.recv⟩

/-- Buffer type tags from `enum bt_buf_type` used by the send path:
    `BT_BUF_CMD = 0`, `BT_BUF_ACL_OUT = 2`, `BT_BUF_ISO_OUT = 4`. -/
def BT_BUF_CMD : Nat := 0

/-- `BT_BUF_ACL_OUT` buffer type tag. -/
def BT_BUF_ACL_OUT : Nat := 2

/-- `BT_BUF_ISO_OUT` buffer type tag. -/
def BT_BUF_ISO_OUT : Nat := 4

/-- `EINVAL` errno value (returned negated). -/
def EINVAL : Int := 22

/-- Result of `hci_driver_send`: the returned status and how many times
    this component called `net_buf_unref` on the input buffer. -/
structure SendResult where
  ret : Int
  unrefs : Nat
deriving DecidableEq, Repr

/-- Shallow embedding of `hci_driver_send` (hci_driver.c:678-717).
    `len` and `typ` are the buffer length and `bt_buf_get_type` tag;
    `extErr` is the status the external controller operation
    (`hci_acl_handle` / `hci_iso_handle`) reports — `cmd_handle`
    itself always returns 0.  The buffer is unreferenced exactly when
    the handler result is 0. -/
def hci_driver_send (len typ : Nat) (extErr : Int) : SendResult :=
  if len = 0 then
    ⟨-EINVAL, 0⟩
  else if typ = BT_BUF_ACL_OUT then
    ⟨extErr, if extErr = 0 then 1 else 0⟩
  else if typ = BT_BUF_CMD then
    ⟨0, 1⟩
  else if typ = BT_BUF_ISO_OUT then
    ⟨extErr, if extErr = 0 then 1 else 0⟩
  else
    ⟨-EINVAL, 0⟩

/-- `ISOAL_SDU_STATUS_VALID` status value. -/
def ISOAL_SDU_STATUS_VALID : Nat := 0

/-- Little-endian bytes of a 16-bit store (`sys_cpu_to_le16`). -/
def le16 (x : Nat) : List Nat := [x % 256, x / 256 % 256]

/-- Little-endian bytes of a 32-bit store (`sys_cpu_to_le32`). -/
def le32 (x : Nat) : List Nat :=
  [x % 256, x / 256 % 256, x / 2 ^ 16 % 256, x / 2 ^ 24 % 256]

/-- The C expression `ts = !(pb & 1)` (hci_driver.c:157): timestamp
    flag derived from the low bit of the PB flag. -/
def iso_ts_flag (pb : Nat) : Nat := if pb &&& 1 = 0 then 1 else 0

/-- The `bt_iso_handle_pack(h, pb, ts)` macro:
    `(h) | ((pb) & 0x0003) << 12 | ((ts) & 0x0001) << 14`. -/
def bt_iso_handle_pack (h pb ts : Nat) : Nat :=
  h ||| ((pb &&& 3) <<< 12) ||| ((ts &&& 1) <<< 14)

/-- The `bt_iso_pkt_len_pack(len, flags)` macro:
    `((len) & BIT_MASK(14)) | ((flags) << 14)`. -/
def bt_iso_pkt_len_pack (len flags : Nat) : Nat :=
  (len &&& 16383) ||| (flags <<< 14)

/-- Shallow embedding of `sink_sdu_emit_hci` (hci_driver.c:109-177) for a
    non-null SDU buffer, as the byte sequence of the delivered packet
    (`none` when the invalid fragment is dropped under
    `CONFIG_BT_CTLR_CONN_ISO_HCI_DATAPATH_SKIP_INVALID_DATA`).  The
    source pushes `BT_HCI_ISO_TS_DATA_HDR_SIZE` (8 bytes: 32-bit
    timestamp, 16-bit sequence number, 16-bit packed length) and then
    `BT_HCI_ISO_HDR_SIZE` (4 bytes: packed handle, length)
    unconditionally, so the wire layout is
    outer header ++ timestamp ++ sn ++ slen ++ payload. -/
def sink_sdu_emit_hci (skipInvalid : Bool) (handle pb status timestamp seqn : Nat)
    (payload : List Nat) : Option (List Nat) :=
  if skipInvalid ∧ status ≠ ISOAL_SDU_STATUS_VALID then
    none
  else
    let ts := iso_ts_flag pb
    let handle_packed := bt_iso_handle_pack handle pb ts
    let len := payload.length + 8
    let slen_packed := bt_iso_pkt_len_pack payload.length status
    some (le16 handle_packed ++ le16 len ++ le32 timestamp ++ le16 seqn ++
          le16 slen_packed ++ payload)

/-- The pending-queue class invariant (claim C10): every queued node is
    a connection event, an LLCP event or ACL data. -/
def pend_inv (q : List NodeRx) : Prop :=
  ∀ x ∈ q, x.cls = .evtConnection ∨ x.cls = .evtLlcp ∨ x.cls = .aclData

instance (q : List NodeRx) : Decidable (pend_inv q) := by
  unfold pend_inv; infer_instance

/-- Concrete ACL-data node used in witnesses and counterexamples. -/
def nodeAcl (h : Nat) : NodeRx := ⟨.aclData, .otherType, h⟩

/-- Concrete connection-event node used in witnesses and counterexamples. -/
def nodeConn (h : Nat) : NodeRx := ⟨.evtConnection, .otherType, h⟩

/-- Concrete LLCP-event node used in witnesses. -/
def nodeLlcp (h : Nat) : NodeRx := ⟨.evtLlcp, .otherType, h⟩

/-- Concrete terminate (disconnection) node used in witnesses. -/
def nodeTerm (h : Nat) : NodeRx := ⟨.evtConnection, .terminate, h⟩

/-- Concrete ISO-data node used in witnesses. -/
def nodeIso : NodeRx := ⟨.isoData, .otherType, 9⟩

/-- Claim C4: for every synthesized ISO fragment the timestamp-present
    flag equals the negation of the low bit of PB: PB ∈ {0b00, 0b10}
    gives flag 1, PB ∈ {0b01, 0b11} gives flag 0, and that flag is what
    lands in bit 14 of the packed handle field of the outer header. -/
theorem C4_ts_flag_negation_of_pb_low_bit (pb h : Nat)
    (hpb : pb < 4) (hh : h < 4096) :
    ((iso_ts_flag pb = 1 ↔ (pb = 0 ∨ pb = 2)) ∧
     (iso_ts_flag pb = 0 ↔ (pb = 1 ∨ pb = 3))) ∧
    (bt_iso_handle_pack h pb (iso_ts_flag pb)).testBit 14 =
      (iso_ts_flag pb == 1) := by
  have hh14 : h.testBit 14 = false :=
    Nat.testBit_lt_two_pow (lt_of_lt_of_le hh (by norm_num))
  interval_cases pb <;>
    exact ⟨by decide, by
      simp [bt_iso_handle_pack, iso_ts_flag, Nat.testBit_or,
            Nat.testBit_shiftLeft, hh14] <;> decide⟩

/-- Witness for C4 at PB = 0b10, handle 0x0040. -/
theorem C4_witness :
    ((iso_ts_flag 2 = 1 ↔ ((2 : Nat) = 0 ∨ (2 : Nat) = 2)) ∧
     (iso_ts_flag 2 = 0 ↔ ((2 : Nat) = 1 ∨ (2 : Nat) = 3))) ∧
    (bt_iso_handle_pack 64 2 (iso_ts_flag 2)).testBit 14 =
      (iso_ts_flag 2 == 1) :=
  C4_ts_flag_negation_of_pb_low_bit 2 64 (by decide) (by decide)

/-- Claim C3 (divergence witness): for PB = 0b01 (continuation fragment)
    the timestamp-present flag is 0, yet `sink_sdu_emit_hci` still writes
    the 32-bit timestamp into the packet (bytes 4..7 hold the
    little-endian timestamp 0x11223344, and the inner length field counts
    the full 8-byte timestamped data header).  The code contradicts its
    own Core-Spec comment (hci_driver.c:153-155) that the TS_Flag bit
    shall be set whenever a Time_Stamp field is contained. -/
theorem C3_timestamp_written_despite_clear_flag :
    sink_sdu_emit_hci false 64 1 0 287454020 5 [170] =
      some [64, 16, 9, 0, 68, 51, 34, 17, 5, 0, 1, 0, 170] ∧
    iso_ts_flag 1 = 0 ∧
    ([64, 16, 9, 0, 68, 51, 34, 17, 5, 0, 1, 0, 170].drop 4).take 4 =
      le32 287454020 := by decide

/-- Claim C5: a terminate (disconnection) node of connection class with
    handle `h`, consumed from the general queue by the priority
    dispatcher, produces a disconnection-complete event carrying `h` on
    the priority channel; the node is released immediately exactly when
    its event flags do not request downstream delivery, and is forwarded
    to the handover queue exactly when they do. -/
theorem C5_terminate_prio_dispatch (node : NodeRx) (h : Nat)
    (hc : node.cls = .evtConnection) (ht : node.typ = .terminate)
    (hh : node.handle = h) :
    (prio_recv_node node).prioEmit = some (.disconnComplete h) ∧
    ((prio_recv_node node).releasedNode ↔
      (process_prio_evt node).2.recv = false) ∧
    ((prio_recv_node node).forwarded ↔
      (process_prio_evt node).2.recv = true) := by
  rcases node with ⟨cls, typ, hd⟩
  simp only at hc ht hh
  subst hc; subst ht; subst hh
  simp [prio_recv_node, process_prio_evt]

/-- Witness for C5 at handle 0x0040. -/
theorem C5_witness :
    (prio_recv_node (nodeTerm 64)).prioEmit =
      some (.disconnComplete 64) ∧
    ((prio_recv_node (nodeTerm 64)).releasedNode ↔
      (process_prio_evt (nodeTerm 64)).2.recv = false) ∧
    ((prio_recv_node (nodeTerm 64)).forwarded ↔
      (process_prio_evt (nodeTerm 64)).2.recv = true) :=
  C5_terminate_prio_dispatch (nodeTerm 64) 64 rfl rfl rfl

/-- Claim C6: the outbound send entry point returns a negative result
    without releasing the buffer when the packet is empty or of
    unrecognized type, and releases the buffer exactly once when
    handling succeeds with result 0. -/
theorem C6_send_error_and_release (len typ : Nat) (extErr : Int) :
    ((len = 0 ∨ (typ ≠ BT_BUF_ACL_OUT ∧ typ ≠ BT_BUF_CMD ∧ typ ≠ BT_BUF_ISO_OUT)) →
      (hci_driver_send len typ extErr).ret < 0 ∧
      (hci_driver_send len typ extErr).unrefs = 0) ∧
    ((hci_driver_send len typ extErr).ret = 0 →
      (hci_driver_send len typ extErr).unrefs = 1) := by
  unfold hci_driver_send EINVAL BT_BUF_ACL_OUT BT_BUF_CMD BT_BUF_ISO_OUT
  split_ifs <;> simp_all

/-- Witness for C6: empty packet is rejected without a release, and a
    successful command packet is released exactly once. -/
theorem C6_witness :
    ((hci_driver_send 0 0 0).ret < 0 ∧ (hci_driver_send 0 0 0).unrefs = 0) ∧
    (hci_driver_send 3 BT_BUF_CMD 5).unrefs = 1 :=
  ⟨(C6_send_error_and_release 0 0 0).1 (Or.inl rfl),
   (C6_send_error_and_release 3 BT_BUF_CMD 5).2 (by decide)⟩

/-- Claim C7: a pending reset clears the flow-control pending queue
    with no node consumed (released) by the gate, and reset is
    idempotent: with the pending queue already empty, a pass that
    consumes a reset behaves exactly like a pass without one. -/
theorem C7_reset_flush_idempotent (allocOk : Bool)
    (total sent acked sent2 acked2 : Int) (pend : List NodeRx)
    (nPresent : Bool) :
    ((process_hbuf allocOk true total sent acked sent2 acked2 pend nPresent).st.hbuf_pend = [] ∧
     (process_hbuf allocOk true total sent acked sent2 acked2 pend nPresent).consumed = none ∧
     (process_hbuf allocOk true total sent acked sent2 acked2 pend nPresent).buf = none) ∧
    process_hbuf allocOk true total sent acked sent2 acked2 [] nPresent =
      process_hbuf allocOk false total sent acked sent2 acked2 [] nPresent := by
  refine ⟨?_, rfl⟩
  simp only [process_hbuf, if_true]
  split_ifs <;> simp

/-- Claim C9: the encode step maps discardable (when its no-wait
    allocation succeeds), required, connection and LLCP classes to an
    event packet, ACL data to a data packet, and for ISO data returns no
    deliverable buffer, releasing the node through the ISO release path. -/
theorem C9_encode_by_class (allocOk : Bool) (node : NodeRx) :
    ((node.cls = .evtRequired ∨ node.cls = .evtConnection ∨ node.cls = .evtLlcp) →
      encode_node allocOk node node.cls =
        ⟨some (.evtPacket node), .llRx, false⟩) ∧
    (node.cls = .evtDiscardable → allocOk = true →
      encode_node allocOk node node.cls =
        ⟨some (.evtPacket node), .llRx, false⟩) ∧
    (node.cls = .aclData →
      encode_node allocOk node node.cls =
        ⟨some (.aclPacket node), .llRx, false⟩) ∧
    (node.cls = .isoData →
      (encode_node allocOk node node.cls).buf = none ∧
      (encode_node allocOk node node.cls).release = .llIsoRx ∧
      (encode_node allocOk node node.cls).fatal = false) := by
  rcases node with ⟨cls, typ, hd⟩
  cases cls <;> cases allocOk <;> simp [encode_node]

/-- Witness for C9: LLCP event encodes to an event packet, ACL data to a
    data packet, and an ISO node yields no buffer and the ISO release
    path. -/
theorem C9_witness :
    (encode_node true (nodeLlcp 2) (nodeLlcp 2).cls =
      ⟨some (.evtPacket (nodeLlcp 2)), .llRx, false⟩) ∧
    (encode_node true (nodeAcl 3) (nodeAcl 3).cls =
      ⟨some (.aclPacket (nodeAcl 3)), .llRx, false⟩) ∧
    ((encode_node true nodeIso nodeIso.cls).buf = none ∧
     (encode_node true nodeIso nodeIso.cls).release = .llIsoRx ∧
     (encode_node true nodeIso nodeIso.cls).fatal = false) :=
  ⟨(C9_encode_by_class true (nodeLlcp 2)).1 (Or.inr (Or.inr rfl)),
   (C9_encode_by_class true (nodeAcl 3)).2.2.1 rfl,
   (C9_encode_by_class true nodeIso).2.2.2 rfl⟩

/-- Appending a connection/LLCP/ACL node preserves the pending-queue
    class invariant. -/
theorem pend_inv_append (q : List NodeRx) (n : NodeRx)
    (hq : pend_inv q)
    (hn : n.cls = .evtConnection ∨ n.cls = .evtLlcp ∨ n.cls = .aclData) :
    pend_inv (q ++ [n]) := by
  intro x hx
  rcases List.mem_append.mp hx with h | h
  · exact hq x h
  · rw [List.mem_singleton.mp h]; exact hn

/-- The tail of a queue satisfying the class invariant satisfies it. -/
theorem pend_inv_tail (n : NodeRx) (q : List NodeRx)
    (h : pend_inv (n :: q)) : pend_inv q :=
  fun x hx => h x (List.mem_cons_of_mem n hx)

/-- Claim C10: every node the gate appends to the flow-control pending
    queue has class connection, LLCP or ACL-data, so the queue invariant
    is preserved by `process_node` and by `process_hbuf`, and under the
    invariant the fatal assertion in the pending-queue head dispatch of
    `process_hbuf` is unreachable. -/
theorem C10_pending_queue_class_invariant (allocOk reset : Bool)
    (st : GateState) (node : NodeRx)
    (total sent acked sent2 acked2 : Int) (pend : List NodeRx)
    (nPresent : Bool) :
    (pend_inv st.hbuf_pend →
      pend_inv (process_node allocOk st node).st.hbuf_pend) ∧
    (pend_inv pend →
      (process_hbuf allocOk reset total sent acked sent2 acked2 pend nPresent).fatal = false ∧
      pend_inv (process_hbuf allocOk reset total sent acked sent2 acked2 pend nPresent).st.hbuf_pend) := by
  constructor
  · intro hinv
    unfold process_node
    split_ifs with hfc
    · cases hc : node.cls <;> simp only [hc] <;>
        first
          | exact hinv
          | (split_ifs with hp
             · exact pend_inv_append _ _ hinv (by simp [hc])
             · exact hinv)
    · exact hinv
  · intro hinv
    have key : ∀ q : List NodeRx, pend_inv q →
        (process_hbuf allocOk false total sent acked sent2 acked2 q nPresent).fatal = false ∧
        pend_inv (process_hbuf allocOk false total sent acked sent2 acked2 q nPresent).st.hbuf_pend := by
      intro q hq
      by_cases htot : total ≤ 0
      · simp [process_hbuf, htot, hq]
      · cases q with
        | nil => simp [process_hbuf, htot, pend_inv]
        | cons nd rest =>
          have hhd := hq nd (List.mem_cons_self nd rest)
          have htl := pend_inv_tail nd rest hq
          cases hnp : nPresent with
          | true => simp [process_hbuf, htot, hq]
          | false =>
            rcases hhd with hc | hc | hc
            · simp [process_hbuf, htot, hc, encode_node, htl]
            · simp [process_hbuf, htot, hc, encode_node, htl]
            · by_cases hz : total - (sent - acked) = 0
              · simp [process_hbuf, htot, hc, hz, hq]
              · simp [process_hbuf, htot, hc, hz, encode_node, htl]
    cases reset with
    | false => exact key pend hinv
    | true =>
      have hr : process_hbuf allocOk true total sent acked sent2 acked2 pend nPresent =
          process_hbuf allocOk false total sent acked sent2 acked2 [] nPresent := rfl
      rw [hr]
      exact key [] (by intro x hx; exact absurd hx (List.not_mem_nil x))

/-- Witness for C10 on a queue holding a connection event and ACL data. -/
theorem C10_witness :
    (process_hbuf true false 2 0 0 0 0 [nodeConn 1, nodeAcl 2] false).fatal = false ∧
    pend_inv (process_hbuf true false 2 0 0 0 0 [nodeConn 1, nodeAcl 2] false).st.hbuf_pend :=
  (C10_pending_queue_class_invariant true false ⟨1, []⟩ (nodeAcl 1)
    2 0 0 0 0 [nodeConn 1, nodeAcl 2] false).2 (by decide)

/-- Claim C2 counterexample: with flow control enabled, available credit
    5 and a non-empty pending queue, a connection-class event is NOT
    admitted (it is appended to the pending queue, producing no buffer),
    and the gate overwrites the credit from 5 down to 1 instead of only
    ever raising it to at least 1 — both halves of the claim fail. -/
theorem C2_counterexample :
    (process_node true ⟨5, [nodeAcl 7]⟩ (nodeConn 8)).buf = none ∧
    (process_node true ⟨5, [nodeAcl 7]⟩ (nodeConn 8)).st.hbuf_count = 1 ∧
    ¬ (5 : Int) ≤ (process_node true ⟨5, [nodeAcl 7]⟩ (nodeConn 8)).st.hbuf_count := by
  decide

/-- Claim C2 (amended): for a connection/LLCP event presented while flow
    control is enabled, the gate sets the available credit to exactly 1;
    the event is admitted iff the pending queue is empty, and otherwise
    is appended to the pending queue; a connection/LLCP head of the
    pending queue is always admitted by the retry pass regardless of
    credit. -/
theorem C2_conn_llcp_gate (allocOk : Bool) (st : GateState) (node : NodeRx)
    (total sent acked sent2 acked2 : Int) (rest : List NodeRx)
    (hcls : node.cls = .evtConnection ∨ node.cls = .evtLlcp)
    (hen : st.hbuf_count ≠ -1) (htot : 0 < total) :
    (process_node allocOk st node).st.hbuf_count = 1 ∧
    ((process_node allocOk st node).buf = some (.evtPacket node) ↔
      st.hbuf_pend = []) ∧
    (st.hbuf_pend ≠ [] →
      (process_node allocOk st node).buf = none ∧
      (process_node allocOk st node).st.hbuf_pend = st.hbuf_pend ++ [node]) ∧
    (process_hbuf allocOk false total sent acked sent2 acked2 (node :: rest) false).buf =
      some (.evtPacket node) := by
  have htot' : ¬ total ≤ 0 := not_le.mpr htot
  rcases st with ⟨cnt, pq⟩
  refine ⟨?_, ?_, ?_, ?_⟩
  · rcases hcls with hc | hc <;> cases pq <;> simp_all [process_node, encode_node]
  · rcases hcls with hc | hc <;> cases pq <;> simp_all [process_node, encode_node]
  · rcases hcls with hc | hc <;> cases pq <;> simp_all [process_node, encode_node]
  · rcases hcls with hc | hc <;> simp [process_hbuf, htot', hc, encode_node]

/-- Witness for C2 with empty pending queue, prior credit 5. -/
theorem C2_witness :
    (process_node true ⟨5, []⟩ (nodeConn 8)).st.hbuf_count = 1 ∧
    ((process_node true ⟨5, []⟩ (nodeConn 8)).buf =
        some (.evtPacket (nodeConn 8)) ↔
      (GateState.mk 5 []).hbuf_pend = []) ∧
    ((GateState.mk 5 []).hbuf_pend ≠ [] →
      (process_node true ⟨5, []⟩ (nodeConn 8)).buf = none ∧
      (process_node true ⟨5, []⟩ (nodeConn 8)).st.hbuf_pend =
        (GateState.mk 5 []).hbuf_pend ++ [nodeConn 8]) ∧
    (process_hbuf true false 1 0 0 0 0 [nodeConn 8] false).buf =
      some (.evtPacket (nodeConn 8)) :=
  C2_conn_llcp_gate true ⟨5, []⟩ (nodeConn 8) 1 0 0 0 0 []
    (Or.inl rfl) (by decide) (by decide)

/-- Claim C1 counterexample: credit history total = 2, sent = 0,
    acked = 0 (available = 2 > 0) but a non-empty pending queue: the
    fresh ACL-data unit is NOT admitted — it is appended behind the
    parked unit — although the claim's condition
    `total ≤ 0 ∨ total − (sent − acked) > 0` holds. -/
theorem C1_counterexample :
    (recv_iter true false 2 0 0 0 0 [nodeAcl 7] (some (nodeAcl 8))).buf = none ∧
    (recv_iter true false 2 0 0 0 0 [nodeAcl 7] (some (nodeAcl 8))).st.hbuf_pend =
      [nodeAcl 7, nodeAcl 8] ∧
    ((2 : Int) ≤ 0 ∨ 0 < 2 - (0 - 0)) := by decide

/-- Claim C1 (amended): for credit histories with
    `0 ≤ sent − acked ≤ total`, an ACL-data unit presented to the gate
    is admitted iff total ≤ 0 (flow control disabled) or (the pending
    queue is empty and total − (sent − acked) > 0); otherwise it is
    appended to the FIFO pending queue; a parked ACL-data unit at the
    head of the pending queue is admitted by the retry pass iff
    total > 0 and the recomputed available credit is positive. -/
theorem C1_acl_admission (allocOk : Bool) (total sent acked : Int)
    (pend : List NodeRx) (node hd : NodeRx) (rest : List NodeRx)
    (hcls : node.cls = .aclData) (hdcls : hd.cls = .aclData)
    (h0 : 0 ≤ sent - acked) (h1 : sent - acked ≤ total) :
    ((recv_iter allocOk false total sent acked sent acked pend (some node)).buf =
        some (.aclPacket node) ↔
      (total ≤ 0 ∨ (pend = [] ∧ 0 < total - (sent - acked)))) ∧
    ((recv_iter allocOk false total sent acked sent acked pend (some node)).buf = none →
      (recv_iter allocOk false total sent acked sent acked pend (some node)).st.hbuf_pend =
        pend ++ [node]) ∧
    (0 < total →
      ((process_hbuf allocOk false total sent acked sent acked (hd :: rest) false).buf =
          some (.aclPacket hd) ↔ 0 < total - (sent - acked))) := by
  have hge : 0 ≤ total - (sent - acked) := by omega
  have hne : total - (sent - acked) ≠ -1 := by omega
  refine ⟨?_, ?_, ?_⟩
  · by_cases htot : total ≤ 0
    · simp [recv_iter, process_hbuf, process_node, htot, hcls, encode_node]
    · cases pend with
      | nil =>
        by_cases hz : total - (sent - acked) = 0
        · simp [recv_iter, process_hbuf, process_node, htot, hcls, hz]
        · simp [recv_iter, process_hbuf, process_node, htot, hcls, hz, hne,
                encode_node]
          omega
      | cons p ps =>
        simp [recv_iter, process_hbuf, process_node, htot, hcls, hne]
  · by_cases htot : total ≤ 0
    · simp [recv_iter, process_hbuf, process_node, htot, hcls, encode_node]
    · cases pend with
      | nil =>
        by_cases hz : total - (sent - acked) = 0
        · simp [recv_iter, process_hbuf, process_node, htot, hcls, hz]
        · simp [recv_iter, process_hbuf, process_node, htot, hcls, hz, hne,
                encode_node]
      | cons p ps =>
        simp [recv_iter, process_hbuf, process_node, htot, hcls, hne]
  · intro htt
    have htot : ¬ total ≤ 0 := not_le.mpr htt
    by_cases hz : total - (sent - acked) = 0
    · simp [process_hbuf, htot, hdcls, hz]
    · simp [process_hbuf, htot, hdcls, hz, encode_node]
      omega

/-- Witness for C1: total = 1, nothing outstanding, empty queue — the
    ACL unit is admitted; and a parked ACL head is admitted by a retry
    pass with credit available. -/
theorem C1_witness :
    ((recv_iter true false 1 0 0 0 0 [] (some (nodeAcl 3))).buf =
        some (.aclPacket (nodeAcl 3)) ↔
      ((1 : Int) ≤ 0 ∨ (([] : List NodeRx) = [] ∧ 0 < (1 : Int) - (0 - 0)))) ∧
    ((recv_iter true false 1 0 0 0 0 [] (some (nodeAcl 3))).buf = none →
      (recv_iter true false 1 0 0 0 0 [] (some (nodeAcl 3))).st.hbuf_pend =
        [] ++ [nodeAcl 3]) ∧
    ((0 : Int) < 1 →
      ((process_hbuf true false 1 0 0 0 0 [nodeAcl 4] false).buf =
          some (.aclPacket (nodeAcl 4)) ↔ (0 : Int) < 1 - (0 - 0))) :=
  C1_acl_admission true 1 0 0 [] (nodeAcl 3) (nodeAcl 4) []
    rfl rfl (by decide) (by decide)

/-- Claim C8: when the retry pass admits and encodes the pending-queue
    head, it recomputes the available credit as
    `total − (sent − acked)` from the freshly re-read counters, and it
    raises the re-check signal iff the new head of the queue is
    connection/LLCP class or ACL-data class with the recomputed credit
    non-zero. -/
theorem C8_drain_recompute_and_signal (allocOk : Bool)
    (total sent acked sent2 acked2 : Int) (node : NodeRx)
    (rest : List NodeRx) (htot : 0 < total)
    (hcls : node.cls = .evtConnection ∨ node.cls = .evtLlcp ∨
      node.cls = .aclData)
    (hadm : node.cls = .aclData → total - (sent - acked) ≠ 0) :
    (process_hbuf allocOk false total sent acked sent2 acked2 (node :: rest) false).consumed =
      some node ∧
    (process_hbuf allocOk false total sent acked sent2 acked2 (node :: rest) false).st.hbuf_count =
      total - (sent2 - acked2) ∧
    (process_hbuf allocOk false total sent acked sent2 acked2 (node :: rest) false).st.hbuf_pend =
      rest ∧
    ((process_hbuf allocOk false total sent acked sent2 acked2 (node :: rest) false).signal = true ↔
      ∃ node2 rest2, rest = node2 :: rest2 ∧
        (node2.cls = .evtConnection ∨ node2.cls = .evtLlcp ∨
          (node2.cls = .aclData ∧ total - (sent2 - acked2) ≠ 0))) := by
  have htot' : ¬ total ≤ 0 := not_le.mpr htot
  have hsig : ∀ n2 : NodeRx,
      (hbuf_head_admissible n2.cls (total - (sent2 - acked2)) = true ↔
        (n2.cls = .evtConnection ∨ n2.cls = .evtLlcp ∨
          (n2.cls = .aclData ∧ total - (sent2 - acked2) ≠ 0))) := by
    intro n2
    simp [hbuf_head_admissible, or_assoc]
  rcases hcls with hc | hc | hc
  · cases rest with
    | nil => simp [process_hbuf, htot', hc, encode_node]
    | cons n2 r2 =>
        simp [process_hbuf, htot', hc, encode_node, hsig n2]
  · cases rest with
    | nil => simp [process_hbuf, htot', hc, encode_node]
    | cons n2 r2 =>
        simp [process_hbuf, htot', hc, encode_node, hsig n2]
  · have hz := hadm hc
    cases rest with
    | nil => simp [process_hbuf, htot', hc, hz, encode_node]
    | cons n2 r2 =>
        simp [process_hbuf, htot', hc, hz, encode_node, hsig n2]

/-- Witness for C8: after draining a connection event, the recomputed
    credit is 1 and the new ACL head raises the re-check signal. -/
theorem C8_witness :
    (process_hbuf true false 2 1 0 2 1 [nodeConn 3, nodeAcl 4] false).consumed =
      some (nodeConn 3) ∧
    (process_hbuf true false 2 1 0 2 1 [nodeConn 3, nodeAcl 4] false).st.hbuf_count =
      2 - (2 - 1) ∧
    (process_hbuf true false 2 1 0 2 1 [nodeConn 3, nodeAcl 4] false).st.hbuf_pend =
      [nodeAcl 4] ∧
    ((process_hbuf true false 2 1 0 2 1 [nodeConn 3, nodeAcl 4] false).signal = true ↔
      ∃ node2 rest2, [nodeAcl 4] = node2 :: rest2 ∧
        (node2.cls = .evtConnection ∨ node2.cls = .evtLlcp ∨
          (node2.cls = .aclData ∧ (2 : Int) - (2 - 1) ≠ 0))) :=
  C8_drain_recompute_and_signal true 2 1 0 2 1 (nodeConn 3) [nodeAcl 4]
    (by decide) (Or.inl rfl) (by decide)

end HciDriver
